import Mathlib

/-!
Shallow embedding of the two JSON configuration validators of the
repository (`scripts/validate_widgets.py` and `scripts/validate_apps.py`).

JSON values parsed by `json.load` are modelled by the inductive `Json`;
Python's dynamic operations that the validators apply to such values
(`in`, `.get`, subscripting, `<`, `+`, set membership, iteration) are
modelled as partial operations in the `Except PyExn` monad, because the
Python originals raise `TypeError` / `AttributeError` / `KeyError` on
some value shapes.  Python's `bool` is a subtype of `int`, so boolean
values pass every `isinstance(..., (int, float))` check and compare as
0/1; the embedding reproduces that.

Each `self.errors.append(...)` / `self.warnings.append(...)` site of the
source becomes one constructor of the `Diag` inductive, carrying the data
interpolated into the message.  The validators are written in an
accumulator-free style: every function returns the list of diagnostics it
appends, in append order, and the caller concatenates the deltas in the
order the source appends them.  An uncaught Python exception is modelled
as `Except.error`; the diagnostics accumulated before the raise are
discarded, which is observationally faithful because the crashed process
never reports them.
-/

/-- JSON value as produced by Python's json.load.  Numbers are modelled
as integers: the validators only add and compare numeric values and
treat int and float uniformly (every isinstance test lists both), so no
behavior they exhibit depends on fractional parts, and the configuration
documents use integer literals. -/
inductive Json where
  | null : Json
  | bool (b : Bool) : Json
  | num (n : ℤ) : Json
  | str (s : String) : Json
  | arr (elems : List Json) : Json
  | obj (fields : List (String × Json)) : Json

/-- Python exception kinds the validators can raise. -/
inductive PyExn where
  | typeError : PyExn
  | attributeError : PyExn
  | keyError : PyExn
deriving DecidableEq, Repr

/-- Whether a file is absent, present but syntactically invalid JSON, or
parsed to a value.  This models the I/O and json.JSONDecodeError paths of
the validate entry points. -/
inductive FileState where
  | missing : FileState
  | malformed : FileState
  | parsed (j : Json) : FileState

namespace Json

/-- Python truthiness of a JSON value. -/
def truthy : Json → Bool
  | .null => false
  | .bool b => b
  | .num n => decide (n ≠ 0)
  | .str s => decide (s ≠ "")
  | .arr xs => !xs.isEmpty
  | .obj fs => !fs.isEmpty

/-- isinstance(v, dict). -/
def isObj : Json → Bool
  | .obj _ => true
  | _ => false

/-- isinstance(v, list). -/
def isArr : Json → Bool
  | .arr _ => true
  | _ => false

/-- isinstance(v, str). -/
def isStr : Json → Bool
  | .str _ => true
  | _ => false

/-- isinstance(v, (int, float)).  Python bools are ints, so they pass. -/
def isNum : Json → Bool
  | .num _ => true
  | .bool _ => true
  | _ => false

/-- Numeric view used by Python arithmetic and comparisons: bools count
as 0/1, everything non-numeric has no view. -/
def asNum : Json → Option ℤ
  | .num n => some n
  | .bool b => some (if b then 1 else 0)
  | _ => none

/-- Whether hash(v) raises TypeError (mutable containers are unhashable). -/
def unhashable : Json → Bool
  | .arr _ => true
  | .obj _ => true
  | _ => false

/-- Last value bound to a key in an object literal; json.load builds a
dict, where a duplicated key keeps its last value.  none on non-objects
and absent keys. -/
def lookup : Json → String → Option Json
  | .obj fs, k => fs.foldl (fun acc kv => if kv.1 = k then some kv.2 else acc) none
  | _, _ => none

/-- One update step of dict construction: replace the value of an
existing key in place, otherwise append the binding. -/
def upsert (acc : List (String × Json)) (kv : String × Json) : List (String × Json) :=
  if acc.any (fun e => e.1 = kv.1) then
    acc.map (fun e => if e.1 = kv.1 then (e.1, kv.2) else e)
  else acc ++ [kv]

/-- dict(...).items() of an object: keys in first-occurrence order, each
with its last value, as Python dict construction does.  Empty on
non-objects. -/
def items : Json → List (String × Json)
  | .obj fs => fs.foldl upsert []
  | _ => []

end Json

/-- Python equality restricted to hashable values, as used by set
membership: numbers and bools compare by numeric value (True == 1),
strings structurally, cross-type otherwise unequal. -/
def pyEqHash (a b : Json) : Bool :=
  match a, b with
  | .null, .null => true
  | .str s, .str t => decide (s = t)
  | _, _ =>
    match a.asNum, b.asNum with
    | some p, some q => decide (p = q)
    | _, _ => false

/-- Membership of a value in a Python set (here: a list of previously
collected hashable values).  Looking up an unhashable value raises
TypeError. -/
def pySetMem (v : Json) (s : List Json) : Except PyExn Bool :=
  if v.unhashable then .error .typeError
  else .ok (s.any (pyEqHash v))

/-- The test `v in constants` where constants is a Python list of string
literals: list membership uses ==, which never raises and matches only
equal strings here. -/
def pyMemStrList (v : Json) (l : List String) : Bool :=
  match v with
  | .str s => l.contains s
  | _ => false

/-- The test `v == "lit"` for a string literal. -/
def pyIsStrLit (v : Json) (s : String) : Bool :=
  match v with
  | .str t => decide (t = s)
  | _ => false

/-- Whether the first character list is a prefix of the second. -/
def charsPrefixOf : List Char → List Char → Bool
  | [], _ => true
  | _ :: _, [] => false
  | c :: cs, d :: ds => c = d && charsPrefixOf cs ds

/-- Whether the first character list occurs contiguously in the second. -/
def charsInfixOf (needle : List Char) : List Char → Bool
  | [] => charsPrefixOf needle []
  | d :: ds => charsPrefixOf needle (d :: ds) || charsInfixOf needle ds

/-- The Python expression `key in v`: key lookup on dicts, substring
test on strings, == membership on lists, TypeError otherwise. -/
def pyContains (key : String) (v : Json) : Except PyExn Bool :=
  match v with
  | .obj _ => .ok (v.lookup key).isSome
  | .str s => .ok (charsInfixOf key.data s.data)
  | .arr xs => .ok (xs.any (fun x => pyIsStrLit x key))
  | _ => .error .typeError

/-- The Python expression `v.get(key, default)`: AttributeError unless v
is a dict. -/
def pyGet (v : Json) (key : String) (default : Json) : Except PyExn Json :=
  match v with
  | .obj _ => .ok ((v.lookup key).getD default)
  | _ => .error .attributeError

/-- The Python expression `v[key]` with a string key: KeyError on a dict
without the key, TypeError on every non-dict. -/
def pyGetItem (v : Json) (key : String) : Except PyExn Json :=
  match v with
  | .obj _ =>
    match v.lookup key with
    | some x => .ok x
    | none => .error .keyError
  | _ => .error .typeError

/-- Python `a + b` as applied by the validators: numeric addition
(bools as 0/1), sequence concatenation, TypeError otherwise. -/
def pyAdd (a b : Json) : Except PyExn Json :=
  match a.asNum, b.asNum with
  | some p, some q => .ok (.num (p + q))
  | _, _ =>
    match a, b with
    | .str s, .str t => .ok (.str (s ++ t))
    | .arr xs, .arr ys => .ok (.arr (xs ++ ys))
    | _, _ => .error .typeError

/-- Python `a < b` as applied by the validators: every comparison in the
source has a numeric literal on one side or operands that already passed
a raising comparison, so only the numeric case returns; any non-numeric
operand raises TypeError. -/
def pyLt (a b : Json) : Except PyExn Bool :=
  match a.asNum, b.asNum with
  | some p, some q => .ok (decide (p < q))
  | _, _ => .error .typeError

/-- Python `a <= b`, numeric operands only (see pyLt). -/
def pyLe (a b : Json) : Except PyExn Bool :=
  match a.asNum, b.asNum with
  | some p, some q => .ok (decide (p ≤ q))
  | _, _ => .error .typeError

/-- Python iteration `for x in v`: list elements, characters of a
string, keys of a dict; TypeError on non-iterables. -/
def pyIter (v : Json) : Except PyExn (List Json) :=
  match v with
  | .arr xs => .ok xs
  | .str s => .ok (s.data.map (fun c => .str (String.mk [c])))
  | .obj _ => .ok ((v.items).map (fun kv => .str kv.1))
  | _ => .error .typeError

/-- Diagnostics: one constructor per errors.append / warnings.append site
of the two validators, carrying the data interpolated into the message.
Constructors are grouped by the source function emitting them. -/
inductive Diag where
  -- AppsValidator.validate
  | appsJsonNotFound : Diag
  | widgetsUnparseable : Diag
  | invalidAppsJson : Diag
  | emptyAppsArray : Diag
  | appsMustBeArray : Diag
  | appsWrongType (got : Json) : Diag
  -- AppsValidator._validate_app
  | missingAppName (pre : String) : Diag
  | missingDescription (pre : String) : Diag
  | imgMustBeString (pre key : String) : Diag
  | imgShouldBeAbsolute (pre key : String) : Diag
  | noTabs (pre : String) : Diag
  | tabsMustBeObject (pre : String) : Diag
  | appGroupsMustBeArray (pre : String) : Diag
  | promptsMustBeArray (pre : String) : Diag
  | promptMustBeString (pre : String) (i : Nat) : Diag
  -- AppsValidator._validate_tab
  | tabMustBeObject (pre : String) : Diag
  | missingTabName (pre : String) : Diag
  | missingTabId (pre : String) : Diag
  | emptyLayout (pre : String) : Diag
  | layoutMustBeArray (pre : String) : Diag
  -- AppsValidator._validate_layout_item
  | layoutItemMustBeObject (pre : String) : Diag
  | missingWidgetId (pre : String) : Diag
  | unknownWidget (pre : String) (wid : Json) : Diag
  | coordMustBeNumber (pre name : String) : Diag
  | xNegative (pre : String) (x : Json) : Diag
  | yNegative (pre : String) (y : Json) : Diag
  | wNotPositive (pre : String) (w : Json) : Diag
  | hNotPositive (pre : String) (h : Json) : Diag
  | beyondGrid (pre : String) (x w : Json) : Diag
  | mayOverlap (pre : String) (wid other : Json) : Diag
  | itemGroupsMustBeArray (pre : String) : Diag
  | groupNameMustBeString (pre : String) : Diag
  -- AppsValidator._validate_widget_state
  | stateMustBeObject (pre : String) : Diag
  | stateParamsMustBeObject (pre : String) : Diag
  | stateChartViewMustBeObject (pre : String) : Diag
  | stateColumnStateMustBeObject (pre : String) : Diag
  -- AppsValidator._validate_group
  | groupMustBeObject (pre : String) : Diag
  | missingGroupName (pre : String) : Diag
  | unknownGroupType (pre : String) (ty : Json) : Diag
  | missingParamName (pre : String) : Diag
  | noWidgetsInGroup (pre : String) : Diag
  | widgetIdsMustBeArray (pre : String) : Diag
  | groupUnknownWidget (pre : String) (wid : Json) : Diag
  -- WidgetValidator.validate
  | widgetsJsonNotFound : Diag
  | invalidWidgetsJson : Diag
  | widgetsMustBeObject : Diag
  | widgetsWrongType (got : Json) : Diag
  | widgetsEmpty : Diag
  -- WidgetValidator._validate_widget
  | missingRequiredField (pre field : String) : Diag
  | invalidWidgetType (pre : String) (ty : Json) : Diag
  | refetchMustBeNumberOrFalse (pre : String) : Diag
  | refetchVeryLow (pre : String) (v : Json) : Diag
  -- WidgetValidator._validate_grid_data
  | gridWMustBeNumber (pre : String) : Diag
  | gridWOutOfRange (pre : String) (w : Json) : Diag
  | gridHMustBeNumber (pre : String) : Diag
  | gridHOutOfRange (pre : String) (h : Json) : Diag
  | gridMinMaxMustBeNumber (pre key : String) : Diag
  -- WidgetValidator._validate_params
  | paramMissingParamName (pre : String) : Diag
  | paramMissingType (pre : String) (pname : Json) : Diag
  | paramInvalidType (pre : String) (pname ty : Json) : Diag
  | paramMissingOptionsEndpoint (pre : String) (pname : Json) : Diag
  | paramOptionsMustBeArray (pre : String) (pname : Json) : Diag
  | paramOptionMustBeObject (pre : String) (pname : Json) (i : Nat) : Diag
  | paramOptionMissingValue (pre : String) (pname : Json) (i : Nat) : Diag
  | paramDateModifierInvalid (pre : String) (pname : Json) (v : String) : Diag
  -- WidgetValidator._validate_table_widget
  | columnsDefsMustBeArray (pre : String) : Diag
  | columnMustBeObject (pre : String) (i : Nat) : Diag
  | columnMissingField (pre : String) (i : Nat) : Diag
  | duplicateFieldName (pre : String) (field : Json) : Diag
  | invalidCellDataType (pre : String) (field ty : Json) : Diag
  | unknownChartDataType (pre : String) (field ty : Json) : Diag
  | unknownFormatterFn (pre : String) (field f : Json) : Diag
  | unknownRenderFn (pre : String) (field fn : Json) : Diag
  -- WidgetValidator._validate_sparkline
  | sparklineTypeInvalid (pre : String) (field ty : Json) : Diag
  | sparklineMissingDataField (pre : String) (field : Json) : Diag
  -- WidgetValidator._validate_mcp_tool
  | mcpMissingServer (pre : String) : Diag
  | mcpMissingToolId (pre : String) : Diag

namespace Diag

/-- Matcher for the unresolved-reference error of a layout item. -/
def isUnknownWidget : Diag → Bool
  | .unknownWidget _ _ => true
  | _ => false

/-- Matcher for the grid bounds error of a layout item. -/
def isBeyondGrid : Diag → Bool
  | .beyondGrid _ _ _ => true
  | _ => false

/-- Matcher for the geometric-overlap warning. -/
def isMayOverlap : Diag → Bool
  | .mayOverlap _ _ _ => true
  | _ => false

/-- The widget named as the already-placed neighbor in an overlap
warning. -/
def overlapOther : Diag → Option Json
  | .mayOverlap _ _ other => some other
  | _ => none

/-- Matcher for the refetchInterval wrong-type error. -/
def isRefetchTypeError : Diag → Bool
  | .refetchMustBeNumberOrFalse _ => true
  | _ => false

/-- Matcher for the non-object static option error at a given index. -/
def isOptObjErrAt (i : Nat) : Diag → Bool
  | .paramOptionMustBeObject _ _ j => decide (i = j)
  | _ => false

/-- Matcher for the option-missing-value error at a given index. -/
def isOptValueErrAt (i : Nat) : Diag → Bool
  | .paramOptionMissingValue _ _ j => decide (i = j)
  | _ => false

end Diag

/-- One entry of a tab's position history: the tuple
(widget_id, x, y, w, h) appended for each layout item that carried a
truthy widget reference. -/
structure PosEntry where
  wid : Json
  x : Json
  y : Json
  w : Json
  h : Json

/-- AppsValidator._rectangles_overlap: two axis-aligned rectangles
overlap iff neither is entirely left of, right of, above, or below the
other; the four comparisons short-circuit left to right and raise
TypeError on non-numeric operands exactly as Python's `or` chain does. -/
def rectanglesOverlap (x1 y1 w1 h1 x2 y2 w2 h2 : Json) : Except PyExn Bool := do
  if ← pyLe (← pyAdd x1 w1) x2 then return false
  else if ← pyLe (← pyAdd x2 w2) x1 then return false
  else if ← pyLe (← pyAdd y1 h1) y2 then return false
  else if ← pyLe (← pyAdd y2 h2) y1 then return false
  else return true

/-- The overlap loop of AppsValidator._validate_layout_item: walk the
position history in order and emit one warning for the first entry whose
rectangle overlaps the current item, stopping there (`break`). -/
def firstOverlap (pre : String) (wid x y w h : Json) :
    List PosEntry → Except PyExn (List Diag)
  | [] => .ok []
  | e :: rest => do
    if ← rectanglesOverlap x y w h e.x e.y e.w e.h then
      return [.mayOverlap pre wid e.wid]
    else
      firstOverlap pre wid x y w h rest

/-- Type, range and grid-bounds checks of _validate_layout_item on the
default-filled coordinates.  The isinstance checks only append errors;
the subsequent comparisons raise TypeError on non-numeric values. -/
def validateItemGeometry (pre : String) (x y w h : Json) : Except PyExn (List Diag) := do
  let typeErrs :=
    (if x.isNum then [] else [Diag.coordMustBeNumber pre "x"]) ++
    (if y.isNum then [] else [Diag.coordMustBeNumber pre "y"]) ++
    (if w.isNum then [] else [Diag.coordMustBeNumber pre "w"]) ++
    (if h.isNum then [] else [Diag.coordMustBeNumber pre "h"])
  let xErrs := if ← pyLt x (.num 0) then [Diag.xNegative pre x] else []
  let yErrs := if ← pyLt y (.num 0) then [Diag.yNegative pre y] else []
  let wErrs := if ← pyLe w (.num 0) then [Diag.wNotPositive pre w] else []
  let hErrs := if ← pyLe h (.num 0) then [Diag.hNotPositive pre h] else []
  let sum ← pyAdd x w
  let bErrs := if ← pyLt (.num 40) sum then [Diag.beyondGrid pre x w] else []
  return typeErrs ++ xErrs ++ yErrs ++ wErrs ++ hErrs ++ bErrs

/-- AppsValidator._validate_widget_state: the state value must be an
object, and each of params / chartView / columnState must be an object
when present. -/
def validateWidgetState (pre : String) (state : Json) : List Diag :=
  if !state.isObj then [.stateMustBeObject pre]
  else
    (match state.lookup "params" with
     | some v => if v.isObj then [] else [Diag.stateParamsMustBeObject pre]
     | none => []) ++
    (match state.lookup "chartView" with
     | some v => if v.isObj then [] else [Diag.stateChartViewMustBeObject pre]
     | none => []) ++
    (match state.lookup "columnState" with
     | some v => if v.isObj then [] else [Diag.stateColumnStateMustBeObject pre]
     | none => [])

/-- Groups-membership part of _validate_layout_item: groups must be an
array whose members are strings. -/
def validateItemGroups (pre : String) (item : Json) : List Diag :=
  match item.lookup "groups" with
  | none => []
  | some gs =>
    match gs with
    | .arr l =>
      l.filterMap (fun g => if g.isStr then none else some (Diag.groupNameMustBeString pre))
    | _ => [Diag.itemGroupsMustBeArray pre]

/-- The widget reference of a layout item: item.get("i"), absent = None. -/
def itemWid (item : Json) : Json := (item.lookup "i").getD .null

/-- item.get("x", 0), the default-filled x position. -/
def itemX (item : Json) : Json := (item.lookup "x").getD (.num 0)

/-- item.get("y", 0), the default-filled y position. -/
def itemY (item : Json) : Json := (item.lookup "y").getD (.num 0)

/-- item.get("w", 12), the default-filled width. -/
def itemW (item : Json) : Json := (item.lookup "w").getD (.num 12)

/-- item.get("h", 8), the default-filled height. -/
def itemH (item : Json) : Json := (item.lookup "h").getD (.num 8)

/-- The reference check of _validate_layout_item:
`if self.widget_ids and widget_id not in self.widget_ids`.  An empty
known-widget set short-circuits the membership test entirely; a
non-empty set probes it, raising TypeError on unhashable references. -/
def refCheck (ids : List Json) (pre : String) (wid : Json) :
    Except PyExn (List Diag) :=
  if ids.isEmpty then pure []
  else do
    let mem ← pySetMem wid ids
    pure (if mem then [] else [Diag.unknownWidget pre wid])

/-- The state sub-object check of _validate_layout_item, run only when
the state key is present. -/
def itemStateErrs (pre : String) (item : Json) : List Diag :=
  match item.lookup "state" with
  | some st => validateWidgetState pre st
  | none => []

/-- AppsValidator._validate_layout_item.  Returns the errors and
warnings it appends, in order, together with the updated position
history; non-object items and items without a truthy widget reference
early-return with the history unchanged. -/
def validateLayoutItem (ids : List Json) (pre : String) (item : Json)
    (positions : List PosEntry) :
    Except PyExn (List Diag × List Diag × List PosEntry) := do
  if !item.isObj then
    return ([.layoutItemMustBeObject pre], [], positions)
  if !(itemWid item).truthy then
    return ([.missingWidgetId pre], [], positions)
  let refErrs ← refCheck ids pre (itemWid item)
  let geomErrs ← validateItemGeometry pre (itemX item) (itemY item) (itemW item) (itemH item)
  let overlapWarns ←
    firstOverlap pre (itemWid item) (itemX item) (itemY item) (itemW item) (itemH item) positions
  let groupErrs := validateItemGroups pre item
  return (refErrs ++ geomErrs ++ itemStateErrs pre item ++ groupErrs,
          overlapWarns,
          positions ++ [⟨itemWid item, itemX item, itemY item, itemW item, itemH item⟩])

/-- The enumerate loop over one tab's layout, threading the position
history from item to item. -/
def validateLayoutFold (ids : List Json) (pre : String) :
    List Json → Nat → List PosEntry → Except PyExn (List Diag × List Diag)
  | [], _, _ => .ok ([], [])
  | it :: rest, i, positions => do
    let (e1, w1, pos2) ←
      validateLayoutItem ids (pre ++ ".layout[" ++ toString i ++ "]") it positions
    let (e2, w2) ← validateLayoutFold ids pre rest (i + 1) pos2
    return (e1 ++ e2, w1 ++ w2)

/-- AppsValidator._validate_tab: the position history used for overlap
detection starts empty for every tab. -/
def validateTab (ids : List Json) (pre : String) (tab : Json) :
    Except PyExn (List Diag × List Diag) := do
  if !tab.isObj then return ([.tabMustBeObject pre], [])
  let nameWarns := if (tab.lookup "name").isSome then [] else [Diag.missingTabName pre]
  let idWarns := if (tab.lookup "id").isSome then [] else [Diag.missingTabId pre]
  let layout := (tab.lookup "layout").getD (.arr [])
  if !layout.truthy then
    return ([], nameWarns ++ idWarns ++ [Diag.emptyLayout pre])
  match layout with
  | .arr its =>
    let (es, ws) ← validateLayoutFold ids pre its 0 []
    return (es, nameWarns ++ idWarns ++ ws)
  | _ => return ([Diag.layoutMustBeArray pre], nameWarns ++ idWarns)

/-- Image-URL check of _validate_app for one of img / img_dark /
img_light: must be a string, and should be an absolute URL. -/
def validateImg (pre key : String) (app : Json) :
    Except PyExn (List Diag × List Diag) := do
  if ← pyContains key app then
    let v ← pyGetItem app key
    match v with
    | .str s =>
      if s.startsWith "http://" || s.startsWith "https://" || s.startsWith "/" then
        return ([], [])
      else
        return ([], [Diag.imgShouldBeAbsolute pre key])
    | _ => return ([Diag.imgMustBeString pre key], [])
  else
    return ([], [])

/-- Membership loop of _validate_group: each widget id is checked
against the known-widget set only when that set is non-empty; looking up
an unhashable value raises TypeError. -/
def groupRefErrs (ids : List Json) (pre : String) : List Json → Except PyExn (List Diag)
  | [] => .ok []
  | wid :: rest => do
    let cur ←
      if ids.isEmpty then pure []
      else do
        let m ← pySetMem wid ids
        pure (if m then [] else [Diag.groupUnknownWidget pre wid])
    let more ← groupRefErrs ids pre rest
    return cur ++ more

/-- AppsValidator._validate_group. -/
def validateGroup (ids : List Json) (pre : String) (group : Json) :
    Except PyExn (List Diag × List Diag) := do
  if !group.isObj then return ([.groupMustBeObject pre], [])
  let nameErrs := if (group.lookup "name").isSome then [] else [Diag.missingGroupName pre]
  let gty := (group.lookup "type").getD .null
  let tyWarns :=
    if gty.truthy && !pyMemStrList gty ["param", "endpointParam"] then
      [Diag.unknownGroupType pre gty]
    else []
  let pnWarns := if (group.lookup "paramName").isSome then [] else [Diag.missingParamName pre]
  let wids := (group.lookup "widgetIds").getD (.arr [])
  if !wids.truthy then
    return (nameErrs, tyWarns ++ pnWarns ++ [Diag.noWidgetsInGroup pre])
  match wids with
  | .arr l =>
    let refErrs ← groupRefErrs ids pre l
    return (nameErrs ++ refErrs, tyWarns ++ pnWarns)
  | _ => return (nameErrs ++ [Diag.widgetIdsMustBeArray pre], tyWarns ++ pnWarns)

/-- The tabs.items() loop of _validate_app. -/
def validateTabs (ids : List Json) (pre : String) :
    List (String × Json) → Except PyExn (List Diag × List Diag)
  | [] => .ok ([], [])
  | (tabId, tab) :: rest => do
    let (e1, w1) ← validateTab ids (pre ++ ".tabs." ++ tabId) tab
    let (e2, w2) ← validateTabs ids pre rest
    return (e1 ++ e2, w1 ++ w2)

/-- The enumerate loop over the groups array of an app. -/
def validateGroups (ids : List Json) (pre : String) :
    List Json → Nat → Except PyExn (List Diag × List Diag)
  | [], _ => .ok ([], [])
  | g :: rest, i => do
    let (e1, w1) ← validateGroup ids (pre ++ ".groups[" ++ toString i ++ "]") g
    let (e2, w2) ← validateGroups ids pre rest (i + 1)
    return (e1 ++ e2, w1 ++ w2)

/-- The enumerate loop over the prompts array of an app. -/
def promptErrList (pre : String) : List Json → Nat → List Diag
  | [], _ => []
  | p :: rest, i =>
    (if p.isStr then [] else [Diag.promptMustBeString pre i]) ++
    promptErrList pre rest (i + 1)

/-- AppsValidator._validate_app.  The membership tests raise TypeError
on non-container apps, and the .get calls raise AttributeError on
non-dict apps, as in Python. -/
def validateApp (ids : List Json) (pre : String) (app : Json) :
    Except PyExn (List Diag × List Diag) := do
  let hasName ← pyContains "name" app
  let nameErrs := if hasName then [] else [Diag.missingAppName pre]
  let hasDesc ← pyContains "description" app
  let descWarns := if hasDesc then [] else [Diag.missingDescription pre]
  let (imgE1, imgW1) ← validateImg pre "img" app
  let (imgE2, imgW2) ← validateImg pre "img_dark" app
  let (imgE3, imgW3) ← validateImg pre "img_light" app
  let tabs ← pyGet app "tabs" (.obj [])
  let (tabErrs, tabWarns) ←
    if !tabs.truthy then pure ([], [Diag.noTabs pre])
    else if !tabs.isObj then pure ([Diag.tabsMustBeObject pre], [])
    else validateTabs ids pre tabs.items
  let groups ← pyGet app "groups" (.arr [])
  let (grpErrs, grpWarns) ←
    if !groups.truthy then pure ([], [])
    else
      match groups with
      | .arr l => validateGroups ids pre l 0
      | _ => pure ([Diag.appGroupsMustBeArray pre], [])
  let prompts ← pyGet app "prompts" (.arr [])
  let promptErrs :=
    if !prompts.truthy then []
    else
      match prompts with
      | .arr l => promptErrList pre l 0
      | _ => [Diag.promptsMustBeArray pre]
  return (nameErrs ++ imgE1 ++ imgE2 ++ imgE3 ++ tabErrs ++ grpErrs ++ promptErrs,
          descWarns ++ imgW1 ++ imgW2 ++ imgW3 ++ tabWarns ++ grpWarns)

/-- The widgets.json-as-list branch of AppsValidator.validate: the set
comprehension evaluates w.get("endpoint", "") then w.get("widgetId", ·)
per element (AttributeError on non-dicts) and set insertion raises
TypeError on unhashable values. -/
def collectListIds : List Json → Except PyExn (List Json)
  | [] => .ok []
  | w :: rest => do
    let inner ← pyGet w "endpoint" (.str "")
    let v ← pyGet w "widgetId" inner
    if v.unhashable then .error .typeError
    else do
      let vs ← collectListIds rest
      return v :: vs

/-- The widgets.json loading phase of AppsValidator.validate, producing
the known-widget set (as a list) and the warnings it appends: a parse
failure is only a warning, an absent file or a non-list non-dict
document leaves the set empty silently. -/
def loadWidgetIds : FileState → Except PyExn (List Json × List Diag)
  | .missing => .ok ([], [])
  | .malformed => .ok ([], [Diag.widgetsUnparseable])
  | .parsed j =>
    match j with
    | .arr ws => do
      let vs ← collectListIds ws
      return (vs, [])
    | .obj _ => .ok ((j.items).map (fun kv => .str kv.1), [])
    | _ => .ok ([], [])

/-- The enumerate loop over the top-level apps array. -/
def validateAppList (ids : List Json) : List Json → Nat → Except PyExn (List Diag × List Diag)
  | [], _ => .ok ([], [])
  | a :: rest, i => do
    let (e1, w1) ← validateApp ids ("app[" ++ toString i ++ "]") a
    let (e2, w2) ← validateAppList ids rest (i + 1)
    return (e1 ++ e2, w1 ++ w2)

/-- AppsValidator.validate, from the file states of apps.json and
widgets.json: returns the pass/fail flag together with the error and
warning lists in append order, or the uncaught exception. -/
def appsValidate (appsFile widgetsFile : FileState) :
    Except PyExn (Bool × List Diag × List Diag) :=
  match appsFile with
  | .missing => .ok (true, [], [Diag.appsJsonNotFound])
  | .malformed => do
    let (_, w0) ← loadWidgetIds widgetsFile
    return (false, [Diag.invalidAppsJson], w0)
  | .parsed apps => do
    let (ids, w0) ← loadWidgetIds widgetsFile
    match apps with
    | .arr l => do
      let emptyW := if l.isEmpty then [Diag.emptyAppsArray] else []
      let (es, ws) ← validateAppList ids l 0
      return (es.isEmpty, es, w0 ++ emptyW ++ ws)
    | .obj _ => return (false, [Diag.appsMustBeArray], w0)
    | other => return (false, [Diag.appsWrongType other], w0)

/-- VALID_WIDGET_TYPES of validate_widgets.py. -/
def validWidgetTypes : List String :=
  ["table", "chart", "chart-highcharts", "markdown", "metric", "newsfeed",
   "html", "pdf", "multi_file_viewer", "advanced_charting", "live_grid",
   "omni", "ssrm_table"]

/-- VALID_PARAM_TYPES of validate_widgets.py. -/
def validParamTypes : List String :=
  ["text", "number", "boolean", "date", "endpoint", "ticker", "tabs", "form"]

/-- VALID_CELL_DATA_TYPES of validate_widgets.py. -/
def validCellDataTypes : List String :=
  ["text", "number", "boolean", "date", "dateString", "object"]

/-- VALID_CHART_DATA_TYPES of validate_widgets.py. -/
def validChartDataTypes : List String :=
  ["category", "series", "time", "excluded"]

/-- VALID_FORMATTER_FNS of validate_widgets.py. -/
def validFormatterFns : List String :=
  ["int", "none", "percent", "normalized", "normalizedPercent", "dateToYear"]

/-- VALID_RENDER_FNS of validate_widgets.py. -/
def validRenderFns : List String :=
  ["greenRed", "titleCase", "hoverCard", "cellOnClick", "columnColor",
   "showCellChange"]

/-- The min/max key loop of WidgetValidator._validate_grid_data. -/
def gridMinMaxErrs (pre : String) (gd : Json) : List String → List Diag
  | [] => []
  | k :: rest =>
    (match gd.lookup k with
     | some v => if v.isNum then [] else [Diag.gridMinMaxMustBeNumber pre k]
     | none => []) ++ gridMinMaxErrs pre gd rest

/-- WidgetValidator._validate_grid_data: w and h must be numeric
(errors) and inside the recommended ranges (warnings); min/max keys must
be numeric when present.  Raises AttributeError when gridData is a
truthy non-dict, as `.get` does. -/
def validateGridData (pre : String) (gd : Json) :
    Except PyExn (List Diag × List Diag) := do
  let w ← pyGet gd "w" (.num 12)
  let h ← pyGet gd "h" (.num 8)
  let wq := w.asNum.getD 0
  let (wErrs, wWarns) :=
    if !w.isNum then ([Diag.gridWMustBeNumber pre], [])
    else if 10 ≤ wq ∧ wq ≤ 40 then ([], [])
    else ([], [Diag.gridWOutOfRange pre w])
  let hq := h.asNum.getD 0
  let (hErrs, hWarns) :=
    if !h.isNum then ([Diag.gridHMustBeNumber pre], [])
    else if 4 ≤ hq ∧ hq ≤ 100 then ([], [])
    else ([], [Diag.gridHOutOfRange pre h])
  let mmErrs := gridMinMaxErrs pre gd ["minW", "maxW", "minH", "maxH"]
  return (wErrs ++ hErrs ++ mmErrs, wWarns ++ hWarns)

/-- The flattening loop of _validate_params: inner lists are spliced,
dicts kept, everything else dropped. -/
def flattenParams (l : List Json) : List Json :=
  l.foldr
    (fun p acc =>
      match p with
      | .arr inner => inner ++ acc
      | .obj _ => p :: acc
      | _ => acc)
    []

/-- The static-options loop of _validate_params: each option must be a
dict carrying a value key. -/
def optionErrs (pre : String) (pname : Json) : List Json → Nat → List Diag
  | [], _ => []
  | opt :: rest, i =>
    (match opt with
     | .obj _ =>
       if (opt.lookup "value").isSome then []
       else [Diag.paramOptionMissingValue pre pname i]
     | _ => [Diag.paramOptionMustBeObject pre pname i]) ++
    optionErrs pre pname rest (i + 1)

/-- Per-parameter checks of _validate_params, applied to one flattened
parameter dict.  The options check only runs for parameters whose type
equals the string literal "text". -/
def validateParam (pre : String) (param : Json) : List Diag × List Diag :=
  let pname := (param.lookup "paramName").getD (.str "unknown")
  if (param.lookup "paramName").isNone then ([Diag.paramMissingParamName pre], [])
  else
    let pty := (param.lookup "type").getD .null
    if !pty.truthy then ([Diag.paramMissingType pre pname], [])
    else
      let tyErrs :=
        if pyMemStrList pty validParamTypes then []
        else [Diag.paramInvalidType pre pname pty]
      let epErrs :=
        if pyIsStrLit pty "endpoint" && (param.lookup "optionsEndpoint").isNone then
          [Diag.paramMissingOptionsEndpoint pre pname]
        else []
      let optErrsL :=
        if pyIsStrLit pty "text" && (param.lookup "options").isSome then
          match (param.lookup "options").getD .null with
          | .arr opts => optionErrs pre pname opts 0
          | _ => [Diag.paramOptionsMustBeArray pre pname]
        else []
      let dateWarns :=
        if pyIsStrLit pty "date" then
          match (param.lookup "value").getD (.str "") with
          | .str v =>
            if v.startsWith "$" &&
               !(v.startsWith "$currentDate" || v.startsWith "$currentDate-") then
              [Diag.paramDateModifierInvalid pre pname v]
            else []
          | _ => []
        else []
      (tyErrs ++ epErrs ++ optErrsL, dateWarns)

/-- WidgetValidator._validate_params: flatten the possibly nested list,
skip non-dict entries, and run the per-parameter checks.  Non-list
params values return silently.  This function never raises. -/
def validateParams (pre : String) (params : Json) : List Diag × List Diag :=
  match params with
  | .arr l =>
    (flattenParams l).foldr
      (fun p acc =>
        match p with
        | .obj _ =>
          let r := validateParam pre p
          (r.1 ++ acc.1, r.2 ++ acc.2)
        | _ => acc)
      ([], [])
  | _ => ([], [])

/-- WidgetValidator._validate_sparkline: warnings only; raises
AttributeError on non-dict sparkline values via `.get`. -/
def validateSparkline (pre : String) (field : Json) (spark : Json) :
    Except PyExn (List Diag) := do
  let sty ← pyGet spark "type" .null
  let tyWarns :=
    if sty.truthy && !pyMemStrList sty ["line", "area", "bar"] then
      [Diag.sparklineTypeInvalid pre field sty]
    else []
  let dfWarns :=
    if (spark.lookup "dataField").isSome then []
    else [Diag.sparklineMissingDataField pre field]
  return tyWarns ++ dfWarns

/-- The column loop of _validate_table_widget, threading the set of
field names seen so far; a membership probe with an unhashable field
value raises TypeError, as the Python set lookup does. -/
def validateColumns (pre : String) :
    List Json → Nat → List Json → Except PyExn (List Diag × List Diag)
  | [], _, _ => .ok ([], [])
  | col :: rest, i, seen =>
    match col with
    | .obj _ => do
      let field := (col.lookup "field").getD (.str ("column_" ++ toString i))
      let missErrs :=
        if (col.lookup "field").isSome then [] else [Diag.columnMissingField pre i]
      let isDup ← pySetMem field seen
      let dupWarns := if isDup then [Diag.duplicateFieldName pre field] else []
      let cellTy := (col.lookup "cellDataType").getD .null
      let cellErrs :=
        if cellTy.truthy && !pyMemStrList cellTy validCellDataTypes then
          [Diag.invalidCellDataType pre field cellTy]
        else []
      let chartTy := (col.lookup "chartDataType").getD .null
      let chartWarns :=
        if chartTy.truthy && !pyMemStrList chartTy validChartDataTypes then
          [Diag.unknownChartDataType pre field chartTy]
        else []
      let fmt := (col.lookup "formatterFn").getD .null
      let fmtWarns :=
        if fmt.truthy && !pyMemStrList fmt validFormatterFns then
          [Diag.unknownFormatterFn pre field fmt]
        else []
      let rfn := (col.lookup "renderFn").getD .null
      let rfnWarns :=
        if rfn.truthy then
          (match rfn with
           | .arr fns => fns
           | _ => [rfn]).filterMap
            (fun fn =>
              if pyMemStrList fn validRenderFns then none
              else some (Diag.unknownRenderFn pre field fn))
        else []
      let sparkWarns ←
        match col.lookup "sparkline" with
        | some sp => validateSparkline pre field sp
        | none => pure []
      let (eRest, wRest) ← validateColumns pre rest (i + 1) (seen ++ [field])
      return (missErrs ++ cellErrs ++ eRest,
              dupWarns ++ chartWarns ++ fmtWarns ++ rfnWarns ++ sparkWarns ++ wRest)
    | _ => do
      let (eRest, wRest) ← validateColumns pre rest (i + 1) seen
      return (Diag.columnMustBeObject pre i :: eRest, wRest)

/-- WidgetValidator._validate_table_widget. -/
def validateTableWidget (pre : String) (widget : Json) :
    Except PyExn (List Diag × List Diag) := do
  let data ← pyGet widget "data" (.obj [])
  let columns ← pyGet data "columnsDefs" (.arr [])
  if !columns.truthy then return ([], [])
  match columns with
  | .arr cols => validateColumns pre cols 0 []
  | _ => return ([Diag.columnsDefsMustBeArray pre], [])

/-- WidgetValidator._validate_chart_widget: the parameter flattening
appends no diagnostics; its only observable effect is the TypeError the
loop raises when the params value is not iterable. -/
def validateChartWidget (widget : Json) : Except PyExn Unit := do
  let params ← pyGet widget "params" (.arr [])
  let _ ← pyIter params
  return ()

/-- WidgetValidator._validate_mcp_tool: both mcp_server and tool_id are
required; the membership tests raise TypeError on non-container
values. -/
def validateMcpTool (pre : String) (mcp : Json) : Except PyExn (List Diag) := do
  let hasServer ← pyContains "mcp_server" mcp
  let sErrs := if hasServer then [] else [Diag.mcpMissingServer pre]
  let hasTool ← pyContains "tool_id" mcp
  let tErrs := if hasTool then [] else [Diag.mcpMissingToolId pre]
  return sErrs ++ tErrs

/-- The required-field loop of _validate_widget.  The membership test
raises TypeError on widgets that are neither containers nor strings;
string widgets are probed by substring, exactly as Python's `in`. -/
def requiredFieldErrs (pre : String) (widget : Json) :
    List String → Except PyExn (List Diag)
  | [] => .ok []
  | f :: rest => do
    let has ← pyContains f widget
    let cur := if has then [] else [Diag.missingRequiredField pre f]
    let more ← requiredFieldErrs pre widget rest
    return cur ++ more

/-- WidgetValidator._validate_widget.  The refetchInterval check skips
JSON null (Python None), accepts every numeric and boolean value
(isinstance(True, int) holds in Python), and warns when the numeric
view is below 1000. -/
def validateWidget (widgetId : String) (widget : Json) :
    Except PyExn (List Diag × List Diag) := do
  let pre := "[" ++ widgetId ++ "]"
  let reqErrs ← requiredFieldErrs pre widget ["name", "type", "endpoint"]
  let wty ← pyGet widget "type" .null
  let tyErrs :=
    if wty.truthy && !pyMemStrList wty validWidgetTypes then
      [Diag.invalidWidgetType pre wty]
    else []
  let gd ← pyGet widget "gridData" (.obj [])
  let (gridErrs, gridWarns) ←
    if gd.truthy then validateGridData pre gd else pure ([], [])
  let params ← pyGet widget "params" (.arr [])
  let (paramErrs, paramWarns) :=
    if params.truthy then validateParams pre params else ([], [])
  let (tblErrs, tblWarns) ←
    if pyIsStrLit wty "table" then validateTableWidget pre widget
    else pure ([], [])
  if pyIsStrLit wty "chart" then validateChartWidget widget else pure ()
  let mcpErrs ←
    match widget.lookup "mcp_tool" with
    | some m => validateMcpTool pre m
    | none => pure []
  let refetch := (widget.lookup "refetchInterval").getD .null
  let (refErrs, refWarns) :=
    match refetch with
    | .null => ([], [])
    | _ =>
      if !refetch.isNum then ([Diag.refetchMustBeNumberOrFalse pre], [])
      else if refetch.asNum.getD 0 < 1000 then ([], [Diag.refetchVeryLow pre refetch])
      else ([], [])
  return (reqErrs ++ tyErrs ++ gridErrs ++ paramErrs ++ tblErrs ++ mcpErrs ++ refErrs,
          gridWarns ++ paramWarns ++ tblWarns ++ refWarns)

/-- The id/endpoint collection loop of WidgetValidator.validate: its
diagnostics are none, but `"endpoint" in widget` raises TypeError on
non-container widget values, subscripting a non-dict raises TypeError,
and adding an unhashable endpoint value to the set raises TypeError. -/
def collectEndpoints : List (String × Json) → Except PyExn Unit
  | [] => .ok ()
  | (_, w) :: rest => do
    let has ← pyContains "endpoint" w
    if has then do
      let v ← pyGetItem w "endpoint"
      if v.unhashable then .error .typeError
      else collectEndpoints rest
    else collectEndpoints rest

/-- The per-widget loop of WidgetValidator.validate. -/
def validateWidgetList : List (String × Json) → Except PyExn (List Diag × List Diag)
  | [] => .ok ([], [])
  | (wid, w) :: rest => do
    let (e1, w1) ← validateWidget wid w
    let (e2, w2) ← validateWidgetList rest
    return (e1 ++ e2, w1 ++ w2)

/-- WidgetValidator.validate, from the file state of widgets.json:
returns the pass/fail flag with the error and warning lists, or the
uncaught exception. -/
def widgetsValidate (widgetsFile : FileState) :
    Except PyExn (Bool × List Diag × List Diag) :=
  match widgetsFile with
  | .missing => .ok (false, [Diag.widgetsJsonNotFound], [])
  | .malformed => .ok (false, [Diag.invalidWidgetsJson], [])
  | .parsed j =>
    match j with
    | .arr _ => .ok (false, [Diag.widgetsMustBeObject], [])
    | .obj _ =>
      let wd := j.items
      if wd.isEmpty then .ok (true, [], [Diag.widgetsEmpty])
      else do
        collectEndpoints wd
        let (es, ws) ← validateWidgetList wd
        return (es.isEmpty, es, ws)
    | other => .ok (false, [Diag.widgetsWrongType other], [])

/-- The layout list of a tab (tab.get("layout", []) when it is an
array), used to state which items a tab's overlap warnings may name. -/
def tabLayoutItems (tab : Json) : List Json :=
  match (tab.lookup "layout").getD (.arr []) with
  | .arr l => l
  | _ => []

/-! Reduction lemmas for the Except monad and small facts about the
Json views, used throughout the proofs. -/

@[simp] theorem exceptBind_ok {α β : Type} (a : α) (f : α → Except PyExn β) :
    (Except.ok a : Except PyExn α) >>= f = f a := rfl

@[simp] theorem exceptBind_error {α β : Type} (e : PyExn) (f : α → Except PyExn β) :
    (Except.error e : Except PyExn α) >>= f = .error e := rfl

@[simp] theorem exceptPure {α : Type} (a : α) :
    (pure a : Except PyExn α) = .ok a := rfl

theorem Json.isNum_eq_isSome_asNum (x : Json) : x.isNum = x.asNum.isSome := by
  cases x <;> rfl

@[simp] theorem Json.asNum_num (n : ℤ) : (Json.num n).asNum = some n := rfl

/-- Closed form of the geometry checks: they return normally iff all
four default-filled coordinates have a numeric view (the isinstance
errors can then never fire, since numbers and bools both pass), and
every raising path raises TypeError. -/
theorem validateItemGeometry_eq (pre : String) (x y w h : Json) :
    validateItemGeometry pre x y w h =
      match x.asNum, y.asNum, w.asNum, h.asNum with
      | some qx, some qy, some qw, some qh =>
        .ok ((if qx < 0 then [Diag.xNegative pre x] else []) ++
             (if qy < 0 then [Diag.yNegative pre y] else []) ++
             (if qw ≤ 0 then [Diag.wNotPositive pre w] else []) ++
             (if qh ≤ 0 then [Diag.hNotPositive pre h] else []) ++
             (if 40 < qx + qw then [Diag.beyondGrid pre x w] else []))
      | _, _, _, _ => .error .typeError := by
  rcases hx : x.asNum with _ | qx <;> rcases hy : y.asNum with _ | qy <;>
    rcases hw : w.asNum with _ | qw <;> rcases hh : h.asNum with _ | qh <;>
    simp [validateItemGeometry, pyLt, pyLe, pyAdd, hx, hy, hw, hh,
      Json.isNum_eq_isSome_asNum]

/-- Geometry diagnostics never match a predicate that is false on the
five geometry constructors. -/
theorem validateItemGeometry_countP_zero (pre : String) (x y w h : Json) (gs : List Diag)
    (hg : validateItemGeometry pre x y w h = .ok gs) (p : Diag → Bool)
    (hp1 : ∀ s n, p (Diag.xNegative s n) = false)
    (hp2 : ∀ s n, p (Diag.yNegative s n) = false)
    (hp3 : ∀ s n, p (Diag.wNotPositive s n) = false)
    (hp4 : ∀ s n, p (Diag.hNotPositive s n) = false)
    (hp5 : ∀ s a b, p (Diag.beyondGrid s a b) = false) :
    gs.countP p = 0 := by
  rcases hx : x.asNum with _ | qx <;> rcases hy : y.asNum with _ | qy <;>
    rcases hw : w.asNum with _ | qw <;> rcases hh : h.asNum with _ | qh <;>
    rw [validateItemGeometry_eq, hx, hy, hw, hh] at hg <;>
    cases hg <;>
    split_ifs <;>
      simp [List.countP_append, List.countP_cons, hp1, hp2, hp3, hp4, hp5]

/-- The bounds error is emitted exactly when the numeric views of the
default-filled x and w sum beyond 40. -/
theorem validateItemGeometry_countP_beyond (pre : String) (x y w h : Json) (gs : List Diag)
    (qx qw : ℤ) (hqx : x.asNum = some qx) (hqw : w.asNum = some qw)
    (hg : validateItemGeometry pre x y w h = .ok gs) :
    gs.countP Diag.isBeyondGrid = if 40 < qx + qw then 1 else 0 := by
  rcases hy : y.asNum with _ | qy <;> rcases hh : h.asNum with _ | qh <;>
    rw [validateItemGeometry_eq, hqx, hy, hqw, hh] at hg <;>
    cases hg <;>
    split_ifs <;>
      simp [List.countP_append, List.countP_cons, Diag.isBeyondGrid]

/-- The reference check returns the empty delta or the single
unresolved-reference error. -/
theorem refCheck_ok_shape (ids : List Json) (pre : String) (wid : Json) (rs : List Diag)
    (h : refCheck ids pre wid = .ok rs) :
    rs = [] ∨ rs = [Diag.unknownWidget pre wid] := by
  unfold refCheck at h
  by_cases he : ids.isEmpty = true
  · simp [he] at h
    exact Or.inl h
  · simp only [he, if_false] at h
    cases hm : pySetMem wid ids with
    | error e => rw [hm] at h; exact absurd h (by simp)
    | ok b =>
      rw [hm] at h
      simp at h
      cases b
      · simp at h; exact Or.inr h.symm
      · simp at h; exact Or.inl h

/-- The reference check against a non-empty set emits exactly the one
unresolved-reference error for an absent hashable reference. -/
theorem refCheck_absent (ids : List Json) (pre : String) (wid : Json)
    (hne : ids ≠ []) (hhash : wid.unhashable = false)
    (habs : ids.any (pyEqHash wid) = false) :
    refCheck ids pre wid = .ok [Diag.unknownWidget pre wid] := by
  cases ids with
  | nil => exact absurd rfl hne
  | cons a l =>
    simp only [refCheck, pySetMem, List.isEmpty_cons, hhash] at *
    simp [habs]

/-- The reference check against the empty set is skipped entirely. -/
theorem refCheck_empty (pre : String) (wid : Json) :
    refCheck [] pre wid = .ok [] := rfl

/-- State-object diagnostics are among the four state constructors. -/
theorem validateWidgetState_mem (pre : String) (st : Json) (d : Diag)
    (hd : d ∈ validateWidgetState pre st) :
    d = .stateMustBeObject pre ∨ d = .stateParamsMustBeObject pre ∨
    d = .stateChartViewMustBeObject pre ∨ d = .stateColumnStateMustBeObject pre := by
  unfold validateWidgetState at hd
  split at hd
  · simp at hd
    exact Or.inl hd
  · simp only [List.mem_append] at hd
    rcases hd with (h | h) | h <;>
      [rcases hm : st.lookup "params" with _ | v;
       rcases hm : st.lookup "chartView" with _ | v;
       rcases hm : st.lookup "columnState" with _ | v] <;>
      rw [hm] at h <;>
      simp at h <;>
      tauto

/-- Diagnostics of the optional state check. -/
theorem itemStateErrs_mem (pre : String) (item : Json) (d : Diag)
    (hd : d ∈ itemStateErrs pre item) :
    d = .stateMustBeObject pre ∨ d = .stateParamsMustBeObject pre ∨
    d = .stateChartViewMustBeObject pre ∨ d = .stateColumnStateMustBeObject pre := by
  unfold itemStateErrs at hd
  rcases h : item.lookup "state" with _ | st <;> rw [h] at hd
  · simp at hd
  · exact validateWidgetState_mem pre st d hd

/-- Diagnostics of the per-item groups check. -/
theorem validateItemGroups_mem (pre : String) (item : Json) (d : Diag)
    (hd : d ∈ validateItemGroups pre item) :
    d = .groupNameMustBeString pre ∨ d = .itemGroupsMustBeArray pre := by
  unfold validateItemGroups at hd
  rcases h : item.lookup "groups" with _ | gs <;> rw [h] at hd
  · simp at hd
  · cases gs with
    | arr l =>
      simp only [List.mem_filterMap] at hd
      obtain ⟨g, _, hg⟩ := hd
      split at hg
      · exact absurd hg (by simp)
      · exact Or.inl (Option.some.inj hg).symm
    | null => simp at hd; simp [hd]
    | bool b => simp at hd; simp [hd]
    | num n => simp at hd; simp [hd]
    | str s => simp at hd; simp [hd]
    | obj fs => simp at hd; simp [hd]

/-- The overlap loop emits nothing or exactly one warning, naming the
current item and one previously placed entry. -/
theorem firstOverlap_ok_shape (pre : String) (wid x y w h : Json) :
    ∀ (positions : List PosEntry) (ws : List Diag),
      firstOverlap pre wid x y w h positions = .ok ws →
      ws = [] ∨ ∃ e : PosEntry, e ∈ positions ∧ ws = [Diag.mayOverlap pre wid e.wid]
  | [], ws, heq => Or.inl (Except.ok.inj heq).symm
  | e :: rest, ws, heq => by
    unfold firstOverlap at heq
    cases hro : rectanglesOverlap x y w h e.x e.y e.w e.h with
    | error ex => rw [hro] at heq; exact absurd heq (by simp)
    | ok b =>
      rw [hro] at heq
      cases b
      · simp only [exceptBind_ok, Bool.false_eq_true, if_false] at heq
        rcases firstOverlap_ok_shape pre wid x y w h rest ws heq with h1 | ⟨e2, he2, hw2⟩
        · exact Or.inl h1
        · exact Or.inr ⟨e2, List.mem_cons_of_mem e he2, hw2⟩
      · simp at heq
        exact Or.inr ⟨e, List.mem_cons_self e rest, heq.symm⟩

/-- An emitted overlap warning names the earliest previously placed
entry whose rectangle overlaps the current item: every earlier entry of
the history tested before it does not overlap. -/
theorem firstOverlap_first (pre : String) (wid x y w h : Json) :
    ∀ (positions : List PosEntry) (ws : List Diag),
      firstOverlap pre wid x y w h positions = .ok ws →
      ∀ p a oid, Diag.mayOverlap p a oid ∈ ws →
      ∃ ps1 e ps2, positions = ps1 ++ e :: ps2 ∧ e.wid = oid ∧
        rectanglesOverlap x y w h e.x e.y e.w e.h = .ok true ∧
        ∀ e2 ∈ ps1, rectanglesOverlap x y w h e2.x e2.y e2.w e2.h = .ok false
  | [], ws, heq => by
    obtain rfl : [] = ws := Except.ok.inj heq
    intro p a oid hmem
    exact absurd hmem (by simp)
  | e :: rest, ws, heq => by
    intro p a oid hmem
    unfold firstOverlap at heq
    cases hro : rectanglesOverlap x y w h e.x e.y e.w e.h with
    | error ex => rw [hro] at heq; exact absurd heq (by simp)
    | ok b =>
      rw [hro] at heq
      cases b
      · simp only [exceptBind_ok, Bool.false_eq_true, if_false] at heq
        obtain ⟨ps1, e2, ps2, hsplit, hwid, hover, hbefore⟩ :=
          firstOverlap_first pre wid x y w h rest ws heq p a oid hmem
        refine ⟨e :: ps1, e2, ps2, by rw [hsplit]; simp, hwid, hover, ?_⟩
        intro e3 he3
        rcases List.mem_cons.1 he3 with rfl | he3
        · exact hro
        · exact hbefore e3 he3
      · simp at heq
        subst heq
        obtain ⟨-, -, hoid⟩ : p = pre ∧ a = wid ∧ oid = e.wid := by
          simpa using hmem
        exact ⟨[], e, rest, rfl, hoid.symm, hro, by simp⟩

/-- Inversion of a normally returning _validate_layout_item call: either
one of the two early returns fired (leaving the position history
untouched), or all three fallible phases returned and the deltas are
their concatenation in append order. -/
theorem validateLayoutItem_ok_cases
    {ids : List Json} {pre : String} {item : Json} {positions : List PosEntry}
    {es ws : List Diag} {ps : List PosEntry}
    (heq : validateLayoutItem ids pre item positions = .ok (es, ws, ps)) :
    (item.isObj = false ∧ es = [Diag.layoutItemMustBeObject pre] ∧ ws = [] ∧ ps = positions) ∨
    (item.isObj = true ∧ (itemWid item).truthy = false ∧
      es = [Diag.missingWidgetId pre] ∧ ws = [] ∧ ps = positions) ∨
    (item.isObj = true ∧ (itemWid item).truthy = true ∧
      ∃ refErrs geomErrs,
        refCheck ids pre (itemWid item) = .ok refErrs ∧
        validateItemGeometry pre (itemX item) (itemY item) (itemW item) (itemH item) =
          .ok geomErrs ∧
        firstOverlap pre (itemWid item) (itemX item) (itemY item) (itemW item) (itemH item)
          positions = .ok ws ∧
        es = refErrs ++ geomErrs ++ itemStateErrs pre item ++ validateItemGroups pre item ∧
        ps = positions ++
          [⟨itemWid item, itemX item, itemY item, itemW item, itemH item⟩]) := by
  unfold validateLayoutItem at heq
  cases hobj : item.isObj with
  | false =>
    rw [hobj] at heq
    simp at heq
    exact Or.inl (by simp_all)
  | true =>
    rw [hobj] at heq
    simp only [Bool.not_true, Bool.false_eq_true, if_false] at heq
    cases htr : (itemWid item).truthy with
    | false =>
      rw [htr] at heq
      simp at heq
      exact Or.inr (Or.inl (by simp_all))
    | true =>
      rw [htr] at heq
      simp only [Bool.not_true, Bool.false_eq_true, if_false] at heq
      cases hr : refCheck ids pre (itemWid item) with
      | error e => rw [hr] at heq; exact absurd heq (by simp)
      | ok refErrs =>
        rw [hr] at heq
        cases hg : validateItemGeometry pre (itemX item) (itemY item) (itemW item)
            (itemH item) with
        | error e => rw [hg] at heq; exact absurd heq (by simp)
        | ok geomErrs =>
          rw [hg] at heq
          cases ho : firstOverlap pre (itemWid item) (itemX item) (itemY item) (itemW item)
              (itemH item) positions with
          | error e => rw [ho] at heq; exact absurd heq (by simp)
          | ok ows =>
            rw [ho] at heq
            simp at heq
            refine Or.inr (Or.inr ⟨rfl, rfl, refErrs, geomErrs, rfl, rfl, ?_, ?_, ?_⟩) <;>
              simp_all

/-- Numeric closed form of the overlap predicate: the standard 2D
interval-intersection test with half-open intervals. -/
theorem rectanglesOverlap_num (x1 y1 w1 h1 x2 y2 w2 h2 : ℤ) :
    rectanglesOverlap (.num x1) (.num y1) (.num w1) (.num h1)
      (.num x2) (.num y2) (.num w2) (.num h2) =
    .ok (!(decide (x1 + w1 ≤ x2) || decide (x2 + w2 ≤ x1) ||
           decide (y1 + h1 ≤ y2) || decide (y2 + h2 ≤ y1))) := by
  by_cases c1 : x1 + w1 ≤ x2 <;> by_cases c2 : x2 + w2 ≤ x1 <;>
    by_cases c3 : y1 + h1 ≤ y2 <;> by_cases c4 : y2 + h2 ≤ y1 <;>
    simp [rectanglesOverlap, pyAdd, pyLe, c1, c2, c3, c4]

/-- Claim C2: the rectangle-overlap predicate is symmetric in its two
rectangles; it is reflexive on rectangles with positive width and
height; and it uses half-open interval semantics: two rectangles that
share only the boundary edge x1 + w1 = x2, with the same y and h, are
not reported as overlapping. -/
theorem rectanglesOverlap_symm_refl_halfopen :
    (∀ x1 y1 w1 h1 x2 y2 w2 h2 : ℤ,
      rectanglesOverlap (.num x1) (.num y1) (.num w1) (.num h1)
        (.num x2) (.num y2) (.num w2) (.num h2) =
      rectanglesOverlap (.num x2) (.num y2) (.num w2) (.num h2)
        (.num x1) (.num y1) (.num w1) (.num h1)) ∧
    (∀ x y w h : ℤ, 0 < w → 0 < h →
      rectanglesOverlap (.num x) (.num y) (.num w) (.num h)
        (.num x) (.num y) (.num w) (.num h) = .ok true) ∧
    (∀ x1 y w1 h x2 w2 : ℤ, x1 + w1 = x2 →
      rectanglesOverlap (.num x1) (.num y) (.num w1) (.num h)
        (.num x2) (.num y) (.num w2) (.num h) = .ok false) := by
  refine ⟨?_, ?_, ?_⟩
  · intro x1 y1 w1 h1 x2 y2 w2 h2
    rw [rectanglesOverlap_num, rectanglesOverlap_num]
    by_cases c1 : x1 + w1 ≤ x2 <;> by_cases c2 : x2 + w2 ≤ x1 <;>
      by_cases c3 : y1 + h1 ≤ y2 <;> by_cases c4 : y2 + h2 ≤ y1 <;>
      simp [c1, c2, c3, c4]
  · intro x y w h hw hh
    rw [rectanglesOverlap_num]
    simp
    omega
  · intro x1 y w1 h x2 w2 hedge
    subst hedge
    rw [rectanglesOverlap_num]
    simp

/-- Witness for claim C2 at concrete rectangles: the 10 by 5 rectangle
at the origin overlaps itself, and rectangles spanning columns 0-10 and
10-20 on the same row do not overlap. -/
theorem rectanglesOverlap_symm_refl_halfopen_witness :
    rectanglesOverlap (.num 0) (.num 0) (.num 10) (.num 5)
      (.num 0) (.num 0) (.num 10) (.num 5) = .ok true ∧
    rectanglesOverlap (.num 0) (.num 1) (.num 10) (.num 5)
      (.num 10) (.num 1) (.num 10) (.num 5) = .ok false :=
  ⟨rectanglesOverlap_symm_refl_halfopen.2.1 0 0 10 5 (by decide) (by decide),
   rectanglesOverlap_symm_refl_halfopen.2.2 0 1 10 5 10 10 (by decide)⟩

/-- Claim C4: a widget registry document that parses as a JSON array
yields exactly the must-be-an-object format-contract error; no
per-widget checks run, and the warning list is untouched. -/
theorem widgetsValidate_array_contract (xs : List Json) :
    widgetsValidate (.parsed (.arr xs)) =
      .ok (false, [Diag.widgetsMustBeObject], []) := rfl

/-- Claim C6: for a layout item past the early returns whose
default-filled x and w are numeric, the out-of-bounds error is emitted
exactly when x + w strictly exceeds the 40-column grid width. -/
theorem layoutItem_beyondGrid_iff
    (ids : List Json) (pre : String) (item : Json) (positions : List PosEntry)
    (es ws : List Diag) (ps : List PosEntry) (qx qw : ℤ)
    (hobj : item.isObj = true) (htr : (itemWid item).truthy = true)
    (hqx : (itemX item).asNum = some qx) (hqw : (itemW item).asNum = some qw)
    (heq : validateLayoutItem ids pre item positions = .ok (es, ws, ps)) :
    es.countP Diag.isBeyondGrid = if 40 < qx + qw then 1 else 0 := by
  rcases validateLayoutItem_ok_cases heq with
    ⟨h, _⟩ | ⟨_, h, _⟩ | ⟨_, _, refErrs, geomErrs, hr, hg, ho, hes, hps⟩
  · simp [hobj] at h
  · simp [htr] at h
  · subst hes
    rw [List.countP_append, List.countP_append, List.countP_append]
    have c1 : refErrs.countP Diag.isBeyondGrid = 0 := by
      rcases refCheck_ok_shape _ _ _ _ hr with rfl | rfl <;>
        simp [Diag.isBeyondGrid]
    have c2 := validateItemGeometry_countP_beyond pre _ _ _ _ geomErrs qx qw hqx hqw hg
    have c3 : (itemStateErrs pre item).countP Diag.isBeyondGrid = 0 := by
      rw [List.countP_eq_zero]
      intro d hd
      rcases itemStateErrs_mem pre item d hd with rfl | rfl | rfl | rfl <;>
        simp [Diag.isBeyondGrid]
    have c4 : (validateItemGroups pre item).countP Diag.isBeyondGrid = 0 := by
      rw [List.countP_eq_zero]
      intro d hd
      rcases validateItemGroups_mem pre item d hd with rfl | rfl <;>
        simp [Diag.isBeyondGrid]
    rw [c1, c2, c3, c4]
    simp

/-- Witness for claim C6: x=35, w=10 (sum 45) yields the one bounds
error, x=30, w=10 (sum 40) yields none. -/
theorem layoutItem_beyondGrid_iff_witness :
    ([Diag.beyondGrid "p" (Json.num 35) (Json.num 10)]).countP Diag.isBeyondGrid =
      (if (40:ℤ) < 35 + 10 then 1 else 0) ∧
    ([] : List Diag).countP Diag.isBeyondGrid =
      (if (40:ℤ) < 30 + 10 then 1 else 0) :=
  ⟨layoutItem_beyondGrid_iff [] "p"
      (.obj [("i", .str "w1"), ("x", .num 35), ("w", .num 10)]) [] _ _ _ 35 10
      rfl rfl rfl rfl rfl,
   layoutItem_beyondGrid_iff [] "p"
      (.obj [("i", .str "w1"), ("x", .num 30), ("w", .num 10)]) [] _ _ _ 30 10
      rfl rfl rfl rfl rfl⟩

/-- Claim C3: a layout item whose widget reference names an id absent
from a non-empty known-widgets set yields exactly one
unresolved-reference error; against the empty set, any item yields
none, because the reference check is skipped entirely. -/
theorem layoutItem_unresolved_reference :
    (∀ (ids : List Json) (pre : String) (item : Json) (positions : List PosEntry)
       (es ws : List Diag) (ps : List PosEntry) (wid : String),
      item.isObj = true →
      item.lookup "i" = some (.str wid) →
      wid ≠ "" →
      ids ≠ [] →
      ids.any (pyEqHash (.str wid)) = false →
      validateLayoutItem ids pre item positions = .ok (es, ws, ps) →
      es.countP Diag.isUnknownWidget = 1) ∧
    (∀ (pre : String) (item : Json) (positions : List PosEntry)
       (es ws : List Diag) (ps : List PosEntry),
      validateLayoutItem [] pre item positions = .ok (es, ws, ps) →
      es.countP Diag.isUnknownWidget = 0) := by
  have hstate : ∀ pre item, (itemStateErrs pre item).countP Diag.isUnknownWidget = 0 := by
    intro pre item
    rw [List.countP_eq_zero]
    intro d hd
    rcases itemStateErrs_mem pre item d hd with rfl | rfl | rfl | rfl <;>
      simp [Diag.isUnknownWidget]
  have hgroups : ∀ pre item, (validateItemGroups pre item).countP Diag.isUnknownWidget = 0 := by
    intro pre item
    rw [List.countP_eq_zero]
    intro d hd
    rcases validateItemGroups_mem pre item d hd with rfl | rfl <;>
      simp [Diag.isUnknownWidget]
  constructor
  · intro ids pre item positions es ws ps wid hobj hlook hne hids habs heq
    have hw : itemWid item = .str wid := by simp [itemWid, hlook]
    have htr : (itemWid item).truthy = true := by
      rw [hw]; simp [Json.truthy, hne]
    rcases validateLayoutItem_ok_cases heq with
      ⟨h, _⟩ | ⟨_, h, _⟩ | ⟨_, _, refErrs, geomErrs, hr, hg, ho, hes, hps⟩
    · simp [hobj] at h
    · simp [htr] at h
    · subst hes
      rw [List.countP_append, List.countP_append, List.countP_append]
      have c1 : refErrs.countP Diag.isUnknownWidget = 1 := by
        rw [hw] at hr
        rw [refCheck_absent ids pre (.str wid) hids rfl habs] at hr
        obtain rfl := Except.ok.inj hr
        simp [Diag.isUnknownWidget]
      have c2 : geomErrs.countP Diag.isUnknownWidget = 0 :=
        validateItemGeometry_countP_zero _ _ _ _ _ _ hg _
          (fun _ _ => rfl) (fun _ _ => rfl) (fun _ _ => rfl) (fun _ _ => rfl)
          (fun _ _ _ => rfl)
      rw [c1, c2, hstate, hgroups]
  · intro pre item positions es ws ps heq
    rcases validateLayoutItem_ok_cases heq with
      ⟨_, rfl, _⟩ | ⟨_, _, rfl, _⟩ | ⟨_, _, refErrs, geomErrs, hr, hg, ho, hes, hps⟩
    · simp [Diag.isUnknownWidget]
    · simp [Diag.isUnknownWidget]
    · subst hes
      rw [List.countP_append, List.countP_append, List.countP_append]
      have c1 : refErrs = [] := by
        have : refCheck [] pre (itemWid item) = .ok [] := rfl
        rw [this] at hr
        exact (Except.ok.inj hr).symm
      have c2 : geomErrs.countP Diag.isUnknownWidget = 0 :=
        validateItemGeometry_countP_zero _ _ _ _ _ _ hg _
          (fun _ _ => rfl) (fun _ _ => rfl) (fun _ _ => rfl) (fun _ _ => rfl)
          (fun _ _ _ => rfl)
      subst c1
      rw [c2, hstate, hgroups]
      simp

/-- Witness for claim C3: a layout referencing w2 against the set
containing only w1 yields exactly one unresolved-reference error, and
against the empty set yields none. -/
theorem layoutItem_unresolved_reference_witness :
    ([Diag.unknownWidget "p" (Json.str "w2")]).countP Diag.isUnknownWidget = 1 ∧
    ([] : List Diag).countP Diag.isUnknownWidget = 0 :=
  ⟨layoutItem_unresolved_reference.1 [.str "w1"] "p" (.obj [("i", .str "w2")]) []
      _ _ _ "w2" rfl rfl (by decide) (by simp) rfl rfl,
   layoutItem_unresolved_reference.2 "p" (.obj [("i", .str "w2")]) [] _ _ _ rfl⟩

/-- Claim C10: a layout item that is an object but whose widget
reference is absent or falsy produces exactly the missing-widget-ID
error, nothing else, and leaves the position history unchanged; and any
overlap warning an item receives names only widgets already in the
position history, so an item that was never appended can never be
named. -/
theorem missingWidgetId_early_return :
    (∀ (ids : List Json) (pre : String) (item : Json) (positions : List PosEntry),
      item.isObj = true → (itemWid item).truthy = false →
      validateLayoutItem ids pre item positions =
        .ok ([Diag.missingWidgetId pre], [], positions)) ∧
    (∀ (ids : List Json) (pre : String) (item : Json) (positions : List PosEntry)
       (es ws : List Diag) (ps : List PosEntry) (d : Diag) (oid : Json),
      validateLayoutItem ids pre item positions = .ok (es, ws, ps) →
      d ∈ ws → d.overlapOther = some oid →
      oid ∈ positions.map PosEntry.wid) := by
  constructor
  · intro ids pre item positions hobj htr
    simp [validateLayoutItem, hobj, htr]
  · intro ids pre item positions es ws ps d oid heq hd hoth
    rcases validateLayoutItem_ok_cases heq with
      ⟨_, _, rfl, _⟩ | ⟨_, _, _, rfl, _⟩ | ⟨_, _, refErrs, geomErrs, hr, hg, ho, hes, hps⟩
    · simp at hd
    · simp at hd
    · rcases firstOverlap_ok_shape _ _ _ _ _ _ _ _ ho with rfl | ⟨e, he, rfl⟩
      · simp at hd
      · rw [List.mem_singleton] at hd
        subst hd
        simp [Diag.overlapOther] at hoth
        subst hoth
        exact List.mem_map_of_mem PosEntry.wid he

/-- Witness for claim C10: an item with no widget reference yields only
the missing-ID error and an unchanged (empty) history. -/
theorem missingWidgetId_early_return_witness :
    validateLayoutItem [] "p" (.obj [("x", .num 1)]) [] =
      .ok ([Diag.missingWidgetId "p"], [], []) :=
  missingWidgetId_early_return.1 [] "p" (.obj [("x", .num 1)]) [] rfl rfl

/-- Claim C1 (code bug): validation does raise past the top-level
validate call on well-formed but invalid content.  A layout item whose
x is the string "a" reaches the range comparison `x < 0`, which raises
TypeError in Python; a widget registry entry whose value is the number
5 reaches `"endpoint" in widget`, which raises TypeError.  In both
cases the claimed diagnostics-instead-of-exception behavior fails. -/
theorem validate_raises_for_wellformed_invalid_content :
    appsValidate (.parsed (.arr [.obj [("name", .str "A"),
        ("tabs", .obj [("t", .obj [("layout",
          .arr [.obj [("i", .str "w"), ("x", .str "a")]])])])]])) .missing =
      .error .typeError ∧
    widgetsValidate (.parsed (.obj [("w1", .num 5)])) = .error .typeError :=
  ⟨rfl, rfl⟩

/-- Claim C9 (code bug): a refetchInterval of boolean true — neither
numeric nor the boolean false — produces no wrong-field-type error,
because isinstance(True, (int, float, bool)) holds in Python; instead
True < 1000 compares as 1 < 1000 and only the low-interval warning is
emitted, and the whole registry validates successfully. -/
theorem refetchInterval_true_accepted :
    widgetsValidate (.parsed (.obj [("w1", .obj [("name", .str "n"),
        ("type", .str "markdown"), ("endpoint", .str "/e"),
        ("refetchInterval", .bool true)])])) =
      .ok (true, [], [Diag.refetchVeryLow "[w1]" (.bool true)]) := rfl

/-- Claim C5: each validator's top-level validate returns overall
success exactly when its accumulated error list is empty, on every
normal return path, including the early returns for missing, malformed,
wrong-top-level-type and empty documents. -/
theorem validate_pass_iff_errors_empty :
    (∀ (af wf : FileState) (b : Bool) (es ws : List Diag),
      appsValidate af wf = .ok (b, es, ws) → (b = true ↔ es = [])) ∧
    (∀ (wf : FileState) (b : Bool) (es ws : List Diag),
      widgetsValidate wf = .ok (b, es, ws) → (b = true ↔ es = [])) := by
  constructor
  · intro af wf b es ws h
    cases af with
    | missing =>
      simp [appsValidate] at h
      obtain ⟨rfl, rfl, -⟩ := h
      simp
    | malformed =>
      unfold appsValidate at h
      cases hl : loadWidgetIds wf with
      | error e => rw [hl] at h; exact absurd h (by simp)
      | ok p =>
        obtain ⟨ids, w0⟩ := p
        rw [hl] at h
        simp at h
        obtain ⟨rfl, rfl, -⟩ := h
        simp
    | parsed apps =>
      unfold appsValidate at h
      cases hl : loadWidgetIds wf with
      | error e => rw [hl] at h; exact absurd h (by simp)
      | ok p =>
        obtain ⟨ids, w0⟩ := p
        rw [hl] at h
        cases apps with
        | arr l =>
          simp only [exceptBind_ok] at h
          cases hv : validateAppList ids l 0 with
          | error e => rw [hv] at h; exact absurd h (by simp)
          | ok r =>
            obtain ⟨es1, ws1⟩ := r
            rw [hv] at h
            simp at h
            obtain ⟨rfl, rfl, -⟩ := h
            cases es1 <;> simp
        | obj fs =>
          simp at h
          obtain ⟨rfl, rfl, -⟩ := h
          simp
        | null =>
          simp at h
          obtain ⟨rfl, rfl, -⟩ := h
          simp
        | bool b2 =>
          simp at h
          obtain ⟨rfl, rfl, -⟩ := h
          simp
        | num n =>
          simp at h
          obtain ⟨rfl, rfl, -⟩ := h
          simp
        | str s =>
          simp at h
          obtain ⟨rfl, rfl, -⟩ := h
          simp
  · intro wf b es ws h
    cases wf with
    | missing =>
      simp [widgetsValidate] at h
      obtain ⟨rfl, rfl, -⟩ := h
      simp
    | malformed =>
      simp [widgetsValidate] at h
      obtain ⟨rfl, rfl, -⟩ := h
      simp
    | parsed j =>
      cases j with
      | arr l =>
        simp [widgetsValidate] at h
        obtain ⟨rfl, rfl, -⟩ := h
        simp
      | obj fs =>
        by_cases hemp : (Json.obj fs).items.isEmpty = true
        · simp [widgetsValidate, hemp] at h
          obtain ⟨rfl, rfl, -⟩ := h
          simp
        · simp only [widgetsValidate, hemp, Bool.false_eq_true, if_false] at h
          cases hc : collectEndpoints (Json.obj fs).items with
          | error e => rw [hc] at h; exact absurd h (by simp)
          | ok u =>
            rw [hc] at h
            cases hv : validateWidgetList (Json.obj fs).items with
            | error e => rw [hv] at h; exact absurd h (by simp)
            | ok r =>
              obtain ⟨es1, ws1⟩ := r
              rw [hv] at h
              simp at h
              obtain ⟨rfl, rfl, -⟩ := h
              cases es1 <;> simp
      | null =>
        simp [widgetsValidate] at h
        obtain ⟨rfl, rfl, -⟩ := h
        simp
      | bool b2 =>
        simp [widgetsValidate] at h
        obtain ⟨rfl, rfl, -⟩ := h
        simp
      | num n =>
        simp [widgetsValidate] at h
        obtain ⟨rfl, rfl, -⟩ := h
        simp
      | str s =>
        simp [widgetsValidate] at h
        obtain ⟨rfl, rfl, -⟩ := h
        simp

/-- Witness for claim C5 at a concrete input: a missing apps.json
returns success with an empty error list. -/
theorem validate_pass_iff_errors_empty_witness :
    (true = true ↔ ([] : List Diag) = []) :=
  validate_pass_iff_errors_empty.1 .missing .missing true [] [Diag.appsJsonNotFound] rfl

/-- Any overlap warning of one item names a widget already recorded in
the incoming position history. -/
theorem validateLayoutItem_overlap_names
    {ids : List Json} {pre : String} {item : Json} {positions : List PosEntry}
    {es ws : List Diag} {ps : List PosEntry}
    (heq : validateLayoutItem ids pre item positions = .ok (es, ws, ps))
    {d : Diag} {oid : Json} (hd : d ∈ ws) (hoth : d.overlapOther = some oid) :
    oid ∈ positions.map PosEntry.wid := by
  rcases validateLayoutItem_ok_cases heq with
    ⟨_, _, rfl, _⟩ | ⟨_, _, _, rfl, _⟩ | ⟨_, _, refErrs, geomErrs, hr, hg, ho, hes, hps⟩
  · simp at hd
  · simp at hd
  · rcases firstOverlap_ok_shape _ _ _ _ _ _ _ _ ho with rfl | ⟨e, he, rfl⟩
    · simp at hd
    · rw [List.mem_singleton] at hd
      subst hd
      simp [Diag.overlapOther] at hoth
      subst hoth
      exact List.mem_map_of_mem PosEntry.wid he

/-- The updated position history of one item is the incoming one,
possibly extended with the entry of that item. -/
theorem validateLayoutItem_positions
    {ids : List Json} {pre : String} {item : Json} {positions : List PosEntry}
    {es ws : List Diag} {ps : List PosEntry}
    (heq : validateLayoutItem ids pre item positions = .ok (es, ws, ps)) :
    ps = positions ∨
    ps = positions ++ [⟨itemWid item, itemX item, itemY item, itemW item, itemH item⟩] := by
  rcases validateLayoutItem_ok_cases heq with
    ⟨_, _, _, rfl⟩ | ⟨_, _, _, _, rfl⟩ | ⟨_, _, _, _, _, _, _, _, hps⟩
  · exact Or.inl rfl
  · exact Or.inl rfl
  · exact Or.inr hps

/-- Any overlap warning produced by the fold over a layout names a
widget from the incoming position history or the reference of one of
the folded items. -/
theorem validateLayoutFold_overlap_names (ids : List Json) (pre : String) :
    ∀ (its : List Json) (i : Nat) (positions : List PosEntry) (es ws : List Diag),
      validateLayoutFold ids pre its i positions = .ok (es, ws) →
      ∀ d ∈ ws, ∀ oid, d.overlapOther = some oid →
      oid ∈ positions.map PosEntry.wid ∨ ∃ it ∈ its, itemWid it = oid
  | [], i, positions, es, ws, heq => by
    intro d hd oid hoth
    simp [validateLayoutFold] at heq
    obtain ⟨-, rfl⟩ := heq
    simp at hd
  | it :: rest, i, positions, es, ws, heq => by
    intro d hd oid hoth
    unfold validateLayoutFold at heq
    cases h1 : validateLayoutItem ids (pre ++ ".layout[" ++ toString i ++ "]") it positions with
    | error e => rw [h1] at heq; exact absurd heq (by simp)
    | ok r1 =>
      obtain ⟨e1, w1, pos2⟩ := r1
      rw [h1] at heq
      simp only [exceptBind_ok] at heq
      cases h2 : validateLayoutFold ids pre rest (i + 1) pos2 with
      | error e => rw [h2] at heq; exact absurd heq (by simp)
      | ok r2 =>
        obtain ⟨e2, w2⟩ := r2
        rw [h2] at heq
        simp at heq
        obtain ⟨-, hws⟩ := heq
        rw [← hws] at hd
        rcases List.mem_append.1 hd with hd1 | hd2
        · exact Or.inl (validateLayoutItem_overlap_names h1 hd1 hoth)
        · rcases validateLayoutFold_overlap_names ids pre rest (i + 1) pos2 e2 w2 h2
            d hd2 oid hoth with hin | ⟨it2, hit2, hoid2⟩
          · rcases validateLayoutItem_positions h1 with rfl | rfl
            · exact Or.inl hin
            · rw [List.map_append, List.mem_append] at hin
              rcases hin with hin | hin
              · exact Or.inl hin
              · simp at hin
                exact Or.inr ⟨it, List.mem_cons_self it rest, hin.symm⟩
          · exact Or.inr ⟨it2, List.mem_cons_of_mem it hit2, hoid2⟩

/-- A diagnostic with an overlap neighbor is an overlap warning. -/
theorem overlapOther_eq_some {d : Diag} {oid : Json}
    (h : d.overlapOther = some oid) :
    ∃ p a, d = Diag.mayOverlap p a oid := by
  cases d <;> simp [Diag.overlapOther] at h
  case mayOverlap p a o => exact ⟨p, a, by rw [h]⟩

/-- Any overlap warning produced while validating one tab names the
widget reference of one of that tab's own layout items: the position
history starts empty for every tab. -/
theorem validateTab_overlap_names
    {ids : List Json} {pre : String} {tab : Json} {es ws : List Diag}
    (heq : validateTab ids pre tab = .ok (es, ws)) :
    ∀ d ∈ ws, ∀ oid, d.overlapOther = some oid →
    ∃ it ∈ tabLayoutItems tab, itemWid it = oid := by
  intro d hd oid hoth
  obtain ⟨p, a, rfl⟩ := overlapOther_eq_some hoth
  unfold validateTab at heq
  cases hobj : tab.isObj with
  | false =>
    rw [hobj] at heq
    simp at heq
    obtain ⟨-, rfl⟩ := heq
    simp at hd
  | true =>
    rw [hobj] at heq
    simp only [Bool.not_true, Bool.false_eq_true, if_false] at heq
    cases htr : ((tab.lookup "layout").getD (.arr [])).truthy with
    | false =>
      rw [htr] at heq
      simp at heq
      obtain ⟨-, rfl⟩ := heq
      simp at hd
    | true =>
      rw [htr] at heq
      simp only [Bool.not_true, Bool.false_eq_true, if_false] at heq
      cases hL : (tab.lookup "layout").getD (.arr []) with
      | arr its =>
        rw [hL] at heq
        simp only [exceptPure, exceptBind_ok] at heq
        cases hf : validateLayoutFold ids pre its 0 [] with
        | error e => rw [hf] at heq; exact absurd heq (by simp)
        | ok r =>
          obtain ⟨es1, ws1⟩ := r
          rw [hf] at heq
          simp at heq
          obtain ⟨-, rfl⟩ := heq
          simp at hd
          rcases validateLayoutFold_overlap_names ids pre its 0 [] es1 ws1 hf
            _ hd oid (by simp [Diag.overlapOther]) with hin | ⟨it, hit, hoid⟩
          · simp at hin
          · refine ⟨it, ?_, hoid⟩
            unfold tabLayoutItems
            rw [hL]
            exact hit
      | null => rw [hL] at htr; simp [Json.truthy] at htr
      | bool b =>
        rw [hL] at heq
        simp at heq
        obtain ⟨-, rfl⟩ := heq
        simp at hd
      | num n =>
        rw [hL] at heq
        simp at heq
        obtain ⟨-, rfl⟩ := heq
        simp at hd
      | str s =>
        rw [hL] at heq
        simp at heq
        obtain ⟨-, rfl⟩ := heq
        simp at hd
      | obj fs =>
        rw [hL] at heq
        simp at heq
        obtain ⟨-, rfl⟩ := heq
        simp at hd

/-- Claim C7: each layout item receives at most one overlap warning;
that warning names the first (earliest previously processed) entry of
the position history whose rectangle overlaps it, every earlier history
entry being overlap-free; and the warnings of a whole tab only ever
name widget references of that same tab's own layout, because the
position history starts empty for every tab. -/
theorem overlap_warning_discipline :
    (∀ (ids : List Json) (pre : String) (item : Json) (positions : List PosEntry)
       (es ws : List Diag) (ps : List PosEntry),
      validateLayoutItem ids pre item positions = .ok (es, ws, ps) →
      ws.countP Diag.isMayOverlap ≤ 1) ∧
    (∀ (ids : List Json) (pre : String) (item : Json) (positions : List PosEntry)
       (es ws : List Diag) (ps : List PosEntry) (p : String) (a oid : Json),
      validateLayoutItem ids pre item positions = .ok (es, ws, ps) →
      Diag.mayOverlap p a oid ∈ ws →
      ∃ ps1 e ps2, positions = ps1 ++ e :: ps2 ∧ e.wid = oid ∧
        rectanglesOverlap (itemX item) (itemY item) (itemW item) (itemH item)
          e.x e.y e.w e.h = .ok true ∧
        ∀ e2 ∈ ps1,
          rectanglesOverlap (itemX item) (itemY item) (itemW item) (itemH item)
            e2.x e2.y e2.w e2.h = .ok false) ∧
    (∀ (ids : List Json) (pre : String) (tab : Json) (es ws : List Diag),
      validateTab ids pre tab = .ok (es, ws) →
      ∀ d ∈ ws, ∀ oid, d.overlapOther = some oid →
      ∃ it ∈ tabLayoutItems tab, itemWid it = oid) := by
  refine ⟨?_, ?_, ?_⟩
  · intro ids pre item positions es ws ps heq
    rcases validateLayoutItem_ok_cases heq with
      ⟨_, _, rfl, _⟩ | ⟨_, _, _, rfl, _⟩ | ⟨_, _, refErrs, geomErrs, hr, hg, ho, hes, hps⟩
    · simp
    · simp
    · rcases firstOverlap_ok_shape _ _ _ _ _ _ _ _ ho with rfl | ⟨e, he, rfl⟩
      · simp
      · simp [List.countP_cons, Diag.isMayOverlap]
  · intro ids pre item positions es ws ps p a oid heq hd
    rcases validateLayoutItem_ok_cases heq with
      ⟨_, _, rfl, _⟩ | ⟨_, _, _, rfl, _⟩ | ⟨_, _, refErrs, geomErrs, hr, hg, ho, hes, hps⟩
    · simp at hd
    · simp at hd
    · exact firstOverlap_first _ _ _ _ _ _ _ _ ho p a oid hd
  · intro ids pre tab es ws heq
    exact validateTab_overlap_names heq

/-- Witness for claim C7: an item placed at the default rectangle over
a history already holding an identical rectangle receives exactly one
overlap warning. -/
theorem overlap_warning_discipline_witness :
    ([Diag.mayOverlap "p" (Json.str "b") (Json.str "a")]).countP Diag.isMayOverlap ≤ 1 :=
  overlap_warning_discipline.1 [] "p" (.obj [("i", .str "b")])
    [⟨.str "a", .num 0, .num 0, .num 12, .num 8⟩] _ _ _ rfl

/-- Option diagnostics carry indices at or above the running start
index, so probes below the start count zero. -/
theorem optionErrs_countP_lt (pre : String) (pname : Json) :
    ∀ (opts : List Json) (start j : Nat), j < start →
      (optionErrs pre pname opts start).countP (Diag.isOptObjErrAt j) = 0 ∧
      (optionErrs pre pname opts start).countP (Diag.isOptValueErrAt j) = 0
  | [], start, j, hj => by simp [optionErrs]
  | opt :: rest, start, j, hj => by
    obtain ⟨ih1, ih2⟩ := optionErrs_countP_lt pre pname rest (start + 1) j (by omega)
    unfold optionErrs
    rw [List.countP_append, List.countP_append, ih1, ih2]
    have hne : j ≠ start := by omega
    constructor <;>
      · cases opt <;>
          simp [List.countP_cons, Diag.isOptObjErrAt, Diag.isOptValueErrAt, hne] <;>
          split_ifs <;>
          simp [List.countP_cons, Diag.isOptObjErrAt, Diag.isOptValueErrAt, hne]

/-- A non-object option at index i yields exactly one
option-must-be-an-object error at that index. -/
theorem optionErrs_countP_obj (pre : String) (pname : Json) :
    ∀ (opts : List Json) (start i : Nat) (opt : Json),
      opts.get? i = some opt → opt.isObj = false →
      (optionErrs pre pname opts start).countP (Diag.isOptObjErrAt (start + i)) = 1
  | [], start, i, opt, hget, _ => by simp at hget
  | opt0 :: rest, start, 0, opt, hget, hobj => by
    obtain rfl : opt0 = opt := by simpa using hget
    unfold optionErrs
    rw [List.countP_append,
      (optionErrs_countP_lt pre pname rest (start + 1) (start + 0) (by omega)).1]
    cases opt0 <;> simp_all [List.countP_cons, Diag.isOptObjErrAt, Json.isObj]
  | opt0 :: rest, start, i + 1, opt, hget, hobj => by
    have hget2 : rest.get? i = some opt := by simpa using hget
    have ih := optionErrs_countP_obj pre pname rest (start + 1) i opt hget2 hobj
    unfold optionErrs
    rw [List.countP_append]
    have harith : start + (i + 1) = (start + 1) + i := by omega
    rw [harith, ih]
    have hne : (start + 1) + i ≠ start := by omega
    cases opt0 <;>
      simp [List.countP_cons, Diag.isOptObjErrAt, hne] <;>
      split_ifs <;>
      simp [List.countP_cons, Diag.isOptObjErrAt, hne]

/-- An object option without a value key at index i yields exactly one
option-missing-value error at that index. -/
theorem optionErrs_countP_value (pre : String) (pname : Json) :
    ∀ (opts : List Json) (start i : Nat) (opt : Json),
      opts.get? i = some opt → opt.isObj = true → opt.lookup "value" = none →
      (optionErrs pre pname opts start).countP (Diag.isOptValueErrAt (start + i)) = 1
  | [], start, i, opt, hget, _, _ => by simp at hget
  | opt0 :: rest, start, 0, opt, hget, hobj, hval => by
    obtain rfl : opt0 = opt := by simpa using hget
    unfold optionErrs
    rw [List.countP_append,
      (optionErrs_countP_lt pre pname rest (start + 1) (start + 0) (by omega)).2]
    cases opt0 <;> simp_all [List.countP_cons, Diag.isOptValueErrAt, Json.isObj]
  | opt0 :: rest, start, i + 1, opt, hget, hobj, hval => by
    have hget2 : rest.get? i = some opt := by simpa using hget
    have ih := optionErrs_countP_value pre pname rest (start + 1) i opt hget2 hobj hval
    unfold optionErrs
    rw [List.countP_append]
    have harith : start + (i + 1) = (start + 1) + i := by omega
    rw [harith, ih]
    have hne : (start + 1) + i ≠ start := by omega
    cases opt0 <;>
      simp [List.countP_cons, Diag.isOptValueErrAt, hne] <;>
      split_ifs <;>
      simp [List.countP_cons, Diag.isOptValueErrAt, hne]

/-- Counterexample to claim C8 as stated: a parameter of kind number
carrying a static options list whose only option is the non-object 5
yields no error at all — the options check never runs for a non-text
kind, so the violation goes undiagnosed. -/
theorem params_options_not_checked_for_number_kind :
    validateParams "[w1]" (.arr [.obj [("paramName", .str "p"),
      ("type", .str "number"), ("options", .arr [.num 5])]]) = ([], []) := rfl

/-- Claim C8 (amended): the static options check runs exactly for
parameters of kind text; there, each option must be an object carrying
a value key, and each violating option yields exactly one error at its
index. -/
theorem text_param_options_checked :
    (∀ (pre pname : String) (opts : List Json),
      validateParams pre (.arr [.obj [("paramName", .str pname),
        ("type", .str "text"), ("options", .arr opts)]]) =
      (optionErrs pre (.str pname) opts 0, [])) ∧
    (∀ (pre : String) (pname : Json) (opts : List Json) (i : Nat) (opt : Json),
      opts.get? i = some opt → opt.isObj = false →
      (optionErrs pre pname opts 0).countP (Diag.isOptObjErrAt i) = 1) ∧
    (∀ (pre : String) (pname : Json) (opts : List Json) (i : Nat) (opt : Json),
      opts.get? i = some opt → opt.isObj = true → opt.lookup "value" = none →
      (optionErrs pre pname opts 0).countP (Diag.isOptValueErrAt i) = 1) := by
  refine ⟨?_, ?_, ?_⟩
  · intro pre pname opts
    have h0 : validateParams pre (.arr [.obj [("paramName", .str pname),
        ("type", .str "text"), ("options", .arr opts)]]) =
        (optionErrs pre (.str pname) opts 0 ++ [], []) := rfl
    rw [h0, List.append_nil]
  · intro pre pname opts i opt hget hobj
    have := optionErrs_countP_obj pre pname opts 0 i opt hget hobj
    simpa using this
  · intro pre pname opts i opt hget hobj hval
    have := optionErrs_countP_value pre pname opts 0 i opt hget hobj hval
    simpa using this

/-- Witness for the amended claim C8: in a text parameter, the
non-object option 5 yields the object error at index 0, and an object
option without a value yields the missing-value error at index 0. -/
theorem text_param_options_checked_witness :
    (optionErrs "[w1]" (.str "p") [.num 5] 0).countP (Diag.isOptObjErrAt 0) = 1 ∧
    (optionErrs "[w1]" (.str "p") [.obj [("label", .str "x")]] 0).countP
      (Diag.isOptValueErrAt 0) = 1 :=
  ⟨text_param_options_checked.2.1 "[w1]" (.str "p") [.num 5] 0 (.num 5) rfl rfl,
   text_param_options_checked.2.2 "[w1]" (.str "p") [.obj [("label", .str "x")]] 0
     (.obj [("label", .str "x")]) rfl rfl rfl⟩
